import Mathlib

/-!
Verification of the karma-tracker-analytics service: a shallow embedding of
`src/routes/normalization.py` and `src/utils/stp_bridge.py`.

Numeric values (Python floats) are modelled as exact rationals: the claims
under study are about data flow (which weight is looked up, which product is
stored, which request a record pairs with), not about floating-point rounding.
Effectful inputs (the weights file, uuid generation, the clock, the HTTP wire)
are passed explicitly as parameters, so every function is total and
deterministic; a Python function that can raise is modelled with `Except`.
-/

/-- `d.get(k, dflt)` on a Python dict modelled as an association list. -/
def dictGet {α : Type} (d : List (String × α)) (k : String) (dflt : α) : α :=
  match d.find? (fun p => p.1 == k) with
  | some p => p.2
  | none => dflt

/-- Request model for state normalization (`NormalizeStateRequest`).
`context` and `metadata` are opaque optional mappings. -/
structure NormalizeStateRequest where
  module : String
  action_type : String
  raw_value : Rat
  context : Option (List (String × String)) := none
  metadata : Option (List (String × String)) := none
deriving DecidableEq

/-- Schema for a normalized behavioral state (`StateSchema`). -/
structure StateSchema where
  state_id : String
  module : String
  action_type : String
  weight : Rat
  feedback_value : Rat
  timestamp : String
deriving DecidableEq

/-- The external weights file: either unreadable/malformed (any exception in
`open`/`json.load`), or successfully loaded with some JSON content, modelled as
a top-level object whose values are string-to-number objects. -/
inductive WeightFile where
  | loadFailure
  | loaded (content : List (String × List (String × Rat)))
deriving DecidableEq

/-- The hardcoded fallback mapping from `load_context_weights`. -/
def fallbackBehaviorWeights : List (String × Rat) :=
  [("finance", 1), ("game", 6/5), ("gurukul", 13/10), ("insight", 11/10)]

/-- `load_context_weights`: read the weights file, returning the default
wrapper `{"default_behavior_weights": {finance:1.0, game:1.2, gurukul:1.3,
insight:1.1}}` if the file cannot be loaded. -/
def load_context_weights (src : WeightFile) : List (String × List (String × Rat)) :=
  match src with
  | .loadFailure => [("default_behavior_weights", fallbackBehaviorWeights)]
  | .loaded content => content

/-- `normalize_single_state`: look up the module weight (default `1.0`),
scale the raw value, and build the normalized state.  `state_id` and
`timestamp` stand for the fresh uuid and the current UTC clock reading. -/
def normalize_single_state (src : WeightFile) (state_id timestamp : String)
    (request : NormalizeStateRequest) : StateSchema :=
  let weights := load_context_weights src
  let behavior_weights := dictGet weights "default_behavior_weights" []
  let module_weight := dictGet behavior_weights request.module 1
  let normalized_value := request.raw_value * module_weight
  { state_id := state_id
    module := request.module
    action_type := request.action_type
    weight := module_weight
    feedback_value := normalized_value
    timestamp := timestamp }

/-- The weight the spec says is used: the value for the module in the loaded
mapping, `1.0` when the module is absent, the whole mapping replaced by the
documented defaults when the source fails to load. -/
def specWeight (src : WeightFile) (module : String) : Rat :=
  match src with
  | .loadFailure => dictGet fallbackBehaviorWeights module 1
  | .loaded content =>
      dictGet (dictGet content "default_behavior_weights" []) module 1

/-- The karma-ledger event record written by the normalization endpoints.
`raw_value`/`context`/`metadata` are `Option`-valued because the batch
endpoint writes `None` when its content lookup finds no matching request. -/
structure EventRecord where
  event_id : String
  event_type : String
  module : String
  action_type : String
  raw_value : Option Rat
  normalized_value : Rat
  weight : Rat
  context : Option (List (String × String))
  metadata : Option (List (String × String))
  timestamp : String
  source : String
  status : String
deriving DecidableEq

/-- The first loop of `normalize_state_batch`: normalize each state in order.
`env i` supplies the uuid and timestamp drawn on the i-th call to
`normalize_single_state` within the batch; `i0` is the index of the next
call. -/
def normalize_batch_states (src : WeightFile) (env : Nat → String × String) :
    Nat → List NormalizeStateRequest → List StateSchema
  | _, [] => []
  | i0, req :: rest =>
      normalize_single_state src (env i0).1 (env i0).2 req ::
        normalize_batch_states src env (i0 + 1) rest

/-- The event record built for one normalized state inside
`normalize_state_batch`: the "corresponding" request is recovered with
`next(req for req in request.states if req.action_type == ns.action_type)`,
i.e. the FIRST request whose `action_type` matches, not the positional one. -/
def batch_event_record (states : List NormalizeStateRequest)
    (ns : StateSchema) : EventRecord :=
  let original_request :=
    states.find? (fun req => req.action_type == ns.action_type)
  { event_id := ns.state_id
    event_type := "normalized_state"
    module := ns.module
    action_type := ns.action_type
    raw_value := original_request.map (fun r => r.raw_value)
    normalized_value := ns.feedback_value
    weight := ns.weight
    context := original_request.bind (fun r => r.context)
    metadata := original_request.bind (fun r => r.metadata)
    timestamp := ns.timestamp
    source := "normalization_api_" ++ ns.module
    status := "processed" }

/-- `normalize_state_batch`, second loop: the sequence of event records
inserted into the karma ledger, in insertion order. -/
def batch_event_records (src : WeightFile) (env : Nat → String × String)
    (states : List NormalizeStateRequest) : List EventRecord :=
  (normalize_batch_states src env 0 states).map (batch_event_record states)

/-!  ## STP bridge (`src/utils/stp_bridge.py`)  -/

/-- The body of an HTTP response: empty (`response.content` falsy), valid
JSON (modelled as a flat string object, enough for the claims, which treat
the parsed value opaquely), or non-empty but not parseable as JSON. -/
inductive Body where
  | empty
  | json (v : List (String × String))
  | malformed (raw : String)
deriving DecidableEq

/-- What one `requests.post` call does on the wire: raise a network-level
exception (connection error, timeout), or come back with a status code and a
body. -/
inductive AttemptOutcome where
  | netError (msg : String)
  | response (status_code : Nat) (body : Body)
deriving DecidableEq

/-- The exception held in `last_exception` inside `_send_with_retry`. -/
inductive BridgeError where
  | unknown
  | netFailure (msg : String)
  | jsonParse (raw : String)
  | httpStatus (status_code : Nat)
deriving DecidableEq

/-- `str(e)` for a recorded failure.  Only the `unknown` rendering is pinned
by the code (`Exception("Unknown error")`); the others stand for the string
of the underlying exception. -/
def BridgeError.toMessage : BridgeError → String
  | .unknown => "Unknown error"
  | .netFailure msg => msg
  | .jsonParse raw => "Expecting value: " ++ raw
  | .httpStatus code => "InsightFlow returned status " ++ toString code

/-- The dict `_send_with_retry` returns on a successful attempt. -/
structure SendSuccess where
  status_code : Nat
  response : List (String × String)
  attempt : Nat
deriving DecidableEq

/-- An inbound signal: an opaque mapping that may carry its own
`signal_id`. -/
structure Signal where
  signal_id : Option String := none
  fields : List (String × String) := []
deriving DecidableEq

/-- The payload `forward_signal` builds once per call. -/
structure TransmissionPayload where
  transmission_id : String
  source : String
  signal : Signal
  timestamp : String
deriving DecidableEq

/-- The dict returned by `forward_signal`, with every key that any branch can
set; keys a branch omits are `none`. -/
structure ForwardResult where
  status : String
  message : Option String := none
  signal_id : Option String := none
  transmission_id : Option String := none
  response : Option SendSuccess := none
  error : Option String := none
  timestamp : String
deriving DecidableEq

/-- The dict returned by `health_check`. -/
structure HealthResult where
  status : String
  endpoint : String
  status_code : Option Nat := none
  response_time : Option Rat := none
  error : Option String := none
  timestamp : String
deriving DecidableEq

/-- Constructor configuration: each key optional, as in the Python `config`
dict. -/
structure BridgeConfig where
  insightflow_endpoint : Option String := none
  retry_attempts : Option Int := none
  timeout : Option Nat := none
  enabled : Option Bool := none

/-- The bridge state fixed at construction. -/
structure STPBridge where
  insightflow_endpoint : String
  retry_attempts : Int
  timeout : Nat
  enabled : Bool
deriving DecidableEq

/-- `STPBridge.__init__`: read each setting from the config with its
default. -/
def STPBridge.ofConfig (c : BridgeConfig) : STPBridge :=
  { insightflow_endpoint :=
      c.insightflow_endpoint.getD "http://localhost:8001/api/v1/insightflow/receive"
    retry_attempts := c.retry_attempts.getD 3
    timeout := c.timeout.getD 10
    enabled := c.enabled.getD true }

/-- `response.json() if response.content else {}`: empty body gives the empty
mapping, a malformed body raises (modelled as `none`). -/
def parseBody : Body → Option (List (String × String))
  | .empty => some []
  | .json v => some v
  | .malformed _ => none

/-- One iteration of the retry loop at 0-based index `i` (the POST, the body
parse, the status check), where `net i` is what the wire does on the i-th
POST of this call.  The body is parsed BEFORE the status code is inspected,
so a malformed body fails the attempt whatever the code; a 200/201 with a
parseable body returns `{status_code, response, attempt: i+1}`; any other
code records an `HTTPException`. -/
def attemptStep (net : Nat → AttemptOutcome) (i : Nat) :
    Except BridgeError SendSuccess :=
  match net i with
  | .netError msg => .error (.netFailure msg)
  | .response code body =>
      match parseBody body with
      | none =>
          .error (.jsonParse (match body with
            | .malformed raw => raw
            | _ => ""))
      | some v =>
          if code = 200 ∨ code = 201 then
            .ok { status_code := code, response := v, attempt := i + 1 }
          else
            .error (.httpStatus code)

/-- Whether a wire outcome is a response with status code 200 or 201. -/
def isSuccessCode (o : AttemptOutcome) : Bool :=
  match o with
  | .response code _ => code == 200 || code == 201
  | .netError _ => false

/-- The `for attempt in range(retry_attempts)` loop of `_send_with_retry`:
`i` is the next 0-based attempt index, `r` the number of iterations left,
`last` the current `last_exception`.  Returns the outcome together with the
list of payloads POSTed, in order (each iteration POSTs `payload` exactly
once, so the trace length counts the HTTP calls). -/
def send_with_retry_go (net : Nat → AttemptOutcome) (payload : TransmissionPayload) :
    Nat → Nat → BridgeError → Except BridgeError SendSuccess × List TransmissionPayload
  | _, 0, last => (.error last, [])
  | i, r + 1, _last =>
      match attemptStep net i with
      | .ok s => (.ok s, [payload])
      | .error e =>
          let rest := send_with_retry_go net payload (i + 1) r e
          (rest.1, payload :: rest.2)

/-- `_send_with_retry`: run up to `retry_attempts` attempts (a non-positive
count means `range` is empty), starting from the pre-initialized
`Exception("Unknown error")`; on exhaustion the last recorded failure is
raised (`.error`). -/
def STPBridge.send_with_retry (b : STPBridge) (net : Nat → AttemptOutcome)
    (payload : TransmissionPayload) :
    Except BridgeError SendSuccess × List TransmissionPayload :=
  send_with_retry_go net payload 0 b.retry_attempts.toNat .unknown

/-- `forward_signal`.  `fresh_signal_id` and `fresh_transmission_id` are the
uuids the call would draw, `now` the clock reading, `net` the wire.  Totality
of this function is the model of "never raises to the caller": the `Except`
from the retry procedure is always converted into a result dict.  Returns
the result and the trace of POSTed payloads. -/
def STPBridge.forward_signal (b : STPBridge) (signal : Signal)
    (fresh_signal_id fresh_transmission_id now : String)
    (net : Nat → AttemptOutcome) : ForwardResult × List TransmissionPayload :=
  if b.enabled = false then
    ({ status := "skipped"
       message := some "STP bridge is disabled"
       timestamp := now }, [])
  else
    let signal_id := signal.signal_id.getD fresh_signal_id
    let payload : TransmissionPayload :=
      { transmission_id := fresh_transmission_id
        source := "karmachain_feedback_engine"
        signal := signal
        timestamp := now }
    match b.send_with_retry net payload with
    | (.ok s, trace) =>
        ({ status := "success"
           signal_id := some signal_id
           transmission_id := some payload.transmission_id
           response := some s
           timestamp := now }, trace)
    | (.error e, trace) =>
        ({ status := "error"
           signal_id := some signal_id
           error := some e.toMessage
           timestamp := now }, trace)

/-- What the single `requests.post` of `health_check` does. -/
inductive HealthOutcome where
  | netError (msg : String)
  | response (status_code : Nat) (elapsed : Rat)
deriving DecidableEq

/-- `health_check`: one POST, no retries.  Returns the result and the number
of POSTs issued (always exactly one; a network failure is still one issued
call). -/
def STPBridge.health_check (b : STPBridge) (now : String)
    (outcome : HealthOutcome) : HealthResult × Nat :=
  match outcome with
  | .netError msg =>
      ({ status := "unhealthy"
         endpoint := b.insightflow_endpoint
         error := some msg
         timestamp := now }, 1)
  | .response code elapsed =>
      ({ status := if code = 200 ∨ code = 201 then "healthy" else "unhealthy"
         endpoint := b.insightflow_endpoint
         status_code := some code
         response_time := some elapsed
         timestamp := now }, 1)

/-!  ## Helper lemmas  -/

/-- A wire outcome that does not carry status code 200 or 201 makes the
attempt fail, whatever the body. -/
lemma attemptStep_error_of_notSuccessCode (net : Nat → AttemptOutcome) (j : Nat)
    (h : isSuccessCode (net j) = false) : ∃ e, attemptStep net j = .error e := by
  cases hnet : net j with
  | netError msg => exact ⟨.netFailure msg, by simp [attemptStep, hnet]⟩
  | response code body =>
      rw [hnet] at h
      simp only [isSuccessCode, Bool.or_eq_false_iff, beq_eq_false_iff_ne, ne_eq] at h
      have hcond : ¬ (code = 200 ∨ code = 201) := by
        rintro (rfl | rfl)
        · exact h.1 rfl
        · exact h.2 rfl
      cases body with
      | empty => exact ⟨.httpStatus code, by simp [attemptStep, hnet, parseBody, hcond]⟩
      | json v => exact ⟨.httpStatus code, by simp [attemptStep, hnet, parseBody, hcond]⟩
      | malformed raw => exact ⟨.jsonParse raw, by simp [attemptStep, hnet, parseBody]⟩

/-- A 200/201 response with a parseable body makes the attempt at 0-based
index `j` succeed, reporting 1-based attempt number `j + 1`. -/
lemma attemptStep_ok_of_success (net : Nat → AttemptOutcome) (j code : Nat)
    (body : Body) (v : List (String × String))
    (hresp : net j = .response code body)
    (hcode : code = 200 ∨ code = 201)
    (hparse : parseBody body = some v) :
    attemptStep net j = .ok { status_code := code, response := v, attempt := j + 1 } := by
  unfold attemptStep
  rw [hresp]
  simp only [hparse]
  rw [if_pos hcode]

/-- If every remaining attempt fails, the loop runs all of them (one POST
each) and ends with the error of the last attempt (or the incoming
`last_exception` when no iterations remain). -/
lemma send_with_retry_go_all_fail (net : Nat → AttemptOutcome)
    (payload : TransmissionPayload) :
    ∀ (r i : Nat) (last : BridgeError),
      (∀ j, j < r → ∃ e, attemptStep net (i + j) = .error e) →
      ∃ e, send_with_retry_go net payload i r last = (.error e, List.replicate r payload) ∧
        ((r = 0 ∧ e = last) ∨ (0 < r ∧ attemptStep net (i + r - 1) = .error e)) := by
  intro r
  induction r with
  | zero =>
      intro i last _
      exact ⟨last, rfl, Or.inl ⟨rfl, rfl⟩⟩
  | succ r ih =>
      intro i last h
      obtain ⟨e0, he0⟩ := h 0 (Nat.succ_pos r)
      rw [Nat.add_zero] at he0
      obtain ⟨e, hgo, hdisj⟩ := ih (i + 1) e0 (fun j hj => by
        have hh := h (j + 1) (by omega)
        rwa [show i + (j + 1) = i + 1 + j by omega] at hh)
      refine ⟨e, ?_, ?_⟩
      · simp only [send_with_retry_go, he0, hgo, List.replicate_succ]
      · rcases hdisj with ⟨hr0, hel⟩ | ⟨hrpos, hstep⟩
        · subst hr0
          subst hel
          refine Or.inr ⟨Nat.succ_pos 0, ?_⟩
          rwa [show i + (0 + 1) - 1 = i by omega]
        · refine Or.inr ⟨Nat.succ_pos r, ?_⟩
          rwa [show i + 1 + r - 1 = i + (r + 1) - 1 by omega] at hstep

/-- If the first `k` attempts fail and attempt `i + k` succeeds with `s`
(and `k` is within the budget), the loop returns `s`, having POSTed the
payload exactly `k + 1` times. -/
lemma send_with_retry_go_first_success (net : Nat → AttemptOutcome)
    (payload : TransmissionPayload) (s : SendSuccess) :
    ∀ (k r i : Nat) (last : BridgeError), k < r →
      (∀ j, j < k → ∃ e, attemptStep net (i + j) = .error e) →
      attemptStep net (i + k) = .ok s →
      send_with_retry_go net payload i r last = (.ok s, List.replicate (k + 1) payload) := by
  intro k
  induction k with
  | zero =>
      intro r i last hkr _ hok
      obtain ⟨r', rfl⟩ : ∃ r', r = r' + 1 := ⟨r - 1, by omega⟩
      rw [Nat.add_zero] at hok
      simp only [send_with_retry_go, hok, List.replicate_succ, List.replicate_zero]
  | succ k ih =>
      intro r i last hkr hbefore hok
      obtain ⟨r', rfl⟩ : ∃ r', r = r' + 1 := ⟨r - 1, by omega⟩
      obtain ⟨e0, he0⟩ := hbefore 0 (Nat.succ_pos k)
      rw [Nat.add_zero] at he0
      have hrec := ih r' (i + 1) e0 (by omega)
        (fun j hj => by
          have hh := hbefore (j + 1) (by omega)
          rwa [show i + (j + 1) = i + 1 + j by omega] at hh)
        (by rwa [show i + 1 + k = i + (k + 1) by omega])
      simp only [send_with_retry_go, he0, hrec, List.replicate_succ]

/-- Positional description of the first batch loop: the output list has one
entry per input, and the entry at position `i` is the normalization of the
input at position `i` with the `i`-th draw of uuid and clock. -/
lemma normalize_batch_states_spec (src : WeightFile) (env : Nat → String × String) :
    ∀ (states : List NormalizeStateRequest) (i0 i : Nat),
      (normalize_batch_states src env i0 states).length = states.length ∧
      (normalize_batch_states src env i0 states)[i]? =
        (states[i]?).map
          (fun r => normalize_single_state src (env (i0 + i)).1 (env (i0 + i)).2 r) := by
  intro states
  induction states with
  | nil => intro i0 i; simp [normalize_batch_states]
  | cons req rest ih =>
      intro i0 i
      refine ⟨by simp [normalize_batch_states, (ih (i0 + 1) 0).1], ?_⟩
      cases i with
      | zero => simp [normalize_batch_states]
      | succ i =>
          have hg := (ih (i0 + 1) i).2
          simp only [normalize_batch_states, List.getElem?_cons_succ]
          rwa [show i0 + 1 + i = i0 + (i + 1) by omega] at hg

/-!  ## Claims  -/

/-- C1: every normalized state has `feedback_value = raw_value * weight(module)`,
where the weight is looked up in the loaded mapping, falls back to `1.0` for a
module absent from the mapping, the mapping falls back to
`{finance:1.0, game:1.2, gurukul:1.3, insight:1.1}` when the weight source
fails to load, and the returned `weight` field equals the weight actually
used. -/
theorem C1_normalize_feedback_value (src : WeightFile) (sid ts : String)
    (req : NormalizeStateRequest) :
    (normalize_single_state src sid ts req).feedback_value
        = req.raw_value * specWeight src req.module ∧
    (normalize_single_state src sid ts req).weight = specWeight src req.module := by
  cases src <;> exact ⟨rfl, rfl⟩

/-- C6: the batch operation returns exactly one normalized state per input
request, in input order, the `i`-th output being the normalization of the
`i`-th input alone (with the `i`-th uuid/clock draw), independent of the
other requests. -/
theorem C6_batch_positional (src : WeightFile) (env : Nat → String × String)
    (states : List NormalizeStateRequest) (i : Nat) (h : i < states.length) :
    (normalize_batch_states src env 0 states).length = states.length ∧
    (normalize_batch_states src env 0 states)[i]? =
      some (normalize_single_state src (env i).1 (env i).2 states[i]) := by
  obtain ⟨hl, hg⟩ := normalize_batch_states_spec src env states 0 i
  refine ⟨hl, ?_⟩
  rw [hg, List.getElem?_eq_getElem h]
  simp

/-- Concrete batch used to exercise the batch claims. -/
def demoStates : List NormalizeStateRequest :=
  [{ module := "finance", action_type := "click", raw_value := 1 },
   { module := "game", action_type := "scroll", raw_value := 3 }]

/-- Environment drawing deterministic uuids/timestamps for demonstrations. -/
def demoEnv : Nat → String × String :=
  fun i => (Nat.repr i, "2026-01-01T00:00:00")

/-- Witness for C6 at a concrete two-element batch, position 1. -/
theorem C6_batch_positional_witness :
    (normalize_batch_states WeightFile.loadFailure demoEnv 0 demoStates).length
        = demoStates.length ∧
    (normalize_batch_states WeightFile.loadFailure demoEnv 0 demoStates)[1]? =
      some (normalize_single_state WeightFile.loadFailure (demoEnv 1).1 (demoEnv 1).2
        (demoStates.get ⟨1, by decide⟩)) :=
  C6_batch_positional WeightFile.loadFailure demoEnv demoStates 1 (by decide)

/-- A batch whose two requests share the same `action_type` but differ in
`raw_value`: the input that exhibits the pairing bug. -/
def dupStates : List NormalizeStateRequest :=
  [{ module := "finance", action_type := "click", raw_value := 1 },
   { module := "finance", action_type := "click", raw_value := 2 }]

/-- C5 (code bug): on a batch whose two requests share `action_type`
"click" with raw values 1 and 2, the event record written for the second
normalized state carries `raw_value` 1 — the first content-matched request —
while the second input request has `raw_value` 2.  The claim (and the spec's
intent) demands pairing by position, so the second record should carry 2. -/
theorem C5_pairing_by_content_bug :
    (batch_event_records WeightFile.loadFailure demoEnv dupStates).map
        (fun r => r.raw_value) = [some 1, some 1] ∧
    dupStates.map (fun r => r.raw_value) = [1, 2] := by
  exact ⟨rfl, rfl⟩

/-- C2: when the bridge is enabled and every one of the `retry_attempts`
attempts fails (non-2xx status or network error), `forward_signal` POSTs
exactly `retry_attempts` times and returns — rather than raising — a result
with status "error" whose error detail renders the last recorded failure. -/
theorem C2_all_attempts_fail (b : STPBridge) (signal : Signal)
    (fsid ftid now : String) (net : Nat → AttemptOutcome) (e : BridgeError)
    (hen : b.enabled = true)
    (hpos : 0 < b.retry_attempts.toNat)
    (hfail : ∀ j, j < b.retry_attempts.toNat → isSuccessCode (net j) = false)
    (hlast : attemptStep net (b.retry_attempts.toNat - 1) = .error e) :
    b.forward_signal signal fsid ftid now net =
      ({ status := "error"
         signal_id := some (signal.signal_id.getD fsid)
         error := some e.toMessage
         timestamp := now },
       List.replicate b.retry_attempts.toNat
         { transmission_id := ftid
           source := "karmachain_feedback_engine"
           signal := signal
           timestamp := now }) := by
  obtain ⟨e', hgo, hdisj⟩ :=
    send_with_retry_go_all_fail net
      { transmission_id := ftid, source := "karmachain_feedback_engine",
        signal := signal, timestamp := now }
      b.retry_attempts.toNat 0 .unknown
      (fun j hj => by
        rw [Nat.zero_add]
        exact attemptStep_error_of_notSuccessCode net j (hfail j hj))
  rcases hdisj with ⟨hr0, _⟩ | ⟨_, hstep⟩
  · omega
  · rw [Nat.zero_add] at hstep
    rw [hlast] at hstep
    injection hstep with he
    subst he
    simp only [STPBridge.forward_signal, hen, Bool.true_eq_false, if_false,
      STPBridge.send_with_retry, hgo]

/-- Witness for C2: default bridge (3 retries), wire always answering 500
with an empty body: three POSTs, an "error" result carrying the last 500. -/
theorem C2_all_attempts_fail_witness :
    (STPBridge.ofConfig {}).forward_signal { signal_id := some "sig-1" }
        "F" "T" "2026-01-01T00:00:00" (fun _ => .response 500 .empty) =
      ({ status := "error"
         signal_id := some "sig-1"
         error := some (BridgeError.toMessage (.httpStatus 500))
         timestamp := "2026-01-01T00:00:00" },
       List.replicate 3
         { transmission_id := "T"
           source := "karmachain_feedback_engine"
           signal := { signal_id := some "sig-1" }
           timestamp := "2026-01-01T00:00:00" }) :=
  C2_all_attempts_fail (STPBridge.ofConfig {}) { signal_id := some "sig-1" }
    "F" "T" "2026-01-01T00:00:00" (fun _ => .response 500 .empty)
    (.httpStatus 500) rfl (by decide)
    (fun j _ => rfl) rfl

/-- C3: when the bridge is enabled and the k-th attempt (1-based, within the
budget) is the first whose response carries status 200 or 201, and its body
parses (empty body giving the empty mapping), `forward_signal` POSTs exactly
k times, returns status "success" with that attempt's parsed body and
attempt number k, and the result's `transmission_id` equals the
`transmission_id` in every one of the k POSTed payloads (the payload is
built once and reused). -/
theorem C3_first_success_at_k (b : STPBridge) (signal : Signal)
    (fsid ftid now : String) (net : Nat → AttemptOutcome)
    (k code : Nat) (body : Body) (v : List (String × String))
    (hen : b.enabled = true)
    (hk1 : 1 ≤ k) (hk : k ≤ b.retry_attempts.toNat)
    (hbefore : ∀ j, j + 1 < k → isSuccessCode (net j) = false)
    (hresp : net (k - 1) = .response code body)
    (hcode : code = 200 ∨ code = 201)
    (hparse : parseBody body = some v) :
    b.forward_signal signal fsid ftid now net =
      ({ status := "success"
         signal_id := some (signal.signal_id.getD fsid)
         transmission_id := some ftid
         response := some { status_code := code, response := v, attempt := k }
         timestamp := now },
       List.replicate k
         { transmission_id := ftid
           source := "karmachain_feedback_engine"
           signal := signal
           timestamp := now }) := by
  have hok : attemptStep net (k - 1) = .ok { status_code := code, response := v, attempt := k } := by
    have h1 := attemptStep_ok_of_success net (k - 1) code body v hresp hcode hparse
    rwa [show k - 1 + 1 = k by omega] at h1
  have hgo := send_with_retry_go_first_success net
    { transmission_id := ftid, source := "karmachain_feedback_engine",
      signal := signal, timestamp := now }
    { status_code := code, response := v, attempt := k }
    (k - 1) b.retry_attempts.toNat 0 .unknown
    (by omega)
    (fun j hj => by
      rw [Nat.zero_add]
      exact attemptStep_error_of_notSuccessCode net j (hbefore j (by omega)))
    (by rwa [Nat.zero_add])
  rw [show k - 1 + 1 = k by omega] at hgo
  simp only [STPBridge.forward_signal, hen, Bool.true_eq_false, if_false,
    STPBridge.send_with_retry, hgo]

/-- Witness for C3: default bridge, first attempt 500, second attempt 200
with body `{"ok": "1"}`: two POSTs, success at attempt 2, stable
transmission id "T" in result and both payloads. -/
theorem C3_first_success_at_k_witness :
    (STPBridge.ofConfig {}).forward_signal { signal_id := some "sig-2" }
        "F" "T" "2026-01-01T00:00:00"
        (fun j => if j = 0 then .response 500 .empty
                  else .response 200 (.json [("ok", "1")])) =
      ({ status := "success"
         signal_id := some "sig-2"
         transmission_id := some "T"
         response := some { status_code := 200, response := [("ok", "1")], attempt := 2 }
         timestamp := "2026-01-01T00:00:00" },
       List.replicate 2
         { transmission_id := "T"
           source := "karmachain_feedback_engine"
           signal := { signal_id := some "sig-2" }
           timestamp := "2026-01-01T00:00:00" }) :=
  C3_first_success_at_k (STPBridge.ofConfig {}) { signal_id := some "sig-2" }
    "F" "T" "2026-01-01T00:00:00"
    (fun j => if j = 0 then .response 500 .empty
              else .response 200 (.json [("ok", "1")]))
    2 200 (.json [("ok", "1")]) [("ok", "1")]
    rfl (by decide) (by decide)
    (fun j hj => by
      have hj0 : j = 0 := by omega
      subst hj0
      rfl)
    rfl (Or.inl rfl) rfl

/-- C4: a bridge constructed with `enabled = false` answers every
`forward_signal` with status "skipped" and issues zero POSTs (the empty
trace: no HTTP call, no retry attempt). -/
theorem C4_disabled_skips (b : STPBridge) (signal : Signal)
    (fsid ftid now : String) (net : Nat → AttemptOutcome)
    (hdis : b.enabled = false) :
    b.forward_signal signal fsid ftid now net =
      ({ status := "skipped"
         message := some "STP bridge is disabled"
         timestamp := now }, []) := by
  simp only [STPBridge.forward_signal, hdis, if_true]

/-- Witness for C4 at a concrete disabled bridge. -/
theorem C4_disabled_skips_witness :
    (STPBridge.ofConfig { enabled := some false }).forward_signal
        { signal_id := some "sig-3" } "F" "T" "2026-01-01T00:00:00"
        (fun _ => .response 200 .empty) =
      ({ status := "skipped"
         message := some "STP bridge is disabled"
         timestamp := "2026-01-01T00:00:00" }, []) :=
  C4_disabled_skips (STPBridge.ofConfig { enabled := some false })
    { signal_id := some "sig-3" } "F" "T" "2026-01-01T00:00:00"
    (fun _ => .response 200 .empty) rfl

/-- C7: `health_check` issues exactly one POST (no retries), reports
"healthy" exactly when the response status code is 200 or 201, never raises
(it is a total function of the probe outcome), and on a network-level
failure returns "unhealthy" with the error detail and with neither a status
code nor a response time. -/
theorem C7_health_check_single_probe (b : STPBridge) (now : String)
    (outcome : HealthOutcome) :
    (b.health_check now outcome).2 = 1 ∧
    ((b.health_check now outcome).1.status = "healthy" ↔
      ∃ code elapsed, outcome = .response code elapsed ∧ (code = 200 ∨ code = 201)) ∧
    (∀ msg, outcome = .netError msg →
      (b.health_check now outcome).1 =
        { status := "unhealthy"
          endpoint := b.insightflow_endpoint
          error := some msg
          timestamp := now }) := by
  cases outcome with
  | netError msg =>
      refine ⟨rfl, ⟨?_, ?_⟩, ?_⟩
      · intro h
        have h2 : ("unhealthy" : String) = "healthy" := h
        exact absurd h2 (by decide)
      · rintro ⟨c, el, hco, _⟩
        cases hco
      · intro m hm
        injection hm with h
        subst h
        rfl
  | response code elapsed =>
      refine ⟨rfl, ?_, fun m hm => by cases hm⟩
      by_cases hc : code = 200 ∨ code = 201
      · simp only [STPBridge.health_check, if_pos hc]
        exact ⟨fun _ => ⟨code, elapsed, rfl, hc⟩, fun _ => trivial⟩
      · simp only [STPBridge.health_check, if_neg hc]
        refine ⟨?_, ?_⟩
        · intro h
          have h2 : ("unhealthy" : String) = "healthy" := h
          exact absurd h2 (by decide)
        · rintro ⟨c, el, hco, hcc⟩
          injection hco with h1 h2
          subst h1
          exact absurd hcc hc

/-- Witness for C7: an unreachable endpoint yields "unhealthy" with the
error detail and no status code or response time. -/
theorem C7_health_check_witness :
    ((STPBridge.ofConfig {}).health_check "2026-01-01T00:00:00"
        (.netError "connection refused")).1 =
      { status := "unhealthy"
        endpoint := "http://localhost:8001/api/v1/insightflow/receive"
        error := some "connection refused"
        timestamp := "2026-01-01T00:00:00" } :=
  (C7_health_check_single_probe (STPBridge.ofConfig {}) "2026-01-01T00:00:00"
      (.netError "connection refused")).2.2 "connection refused" rfl

/-- C8 counterexample: a disabled bridge returns the "skipped" result, and
that result carries NO `signal_id` — refuting the claim that every
`forward_signal` result (including "skipped") contains one. -/
theorem C8_counterexample_skipped_has_no_signal_id :
    (((STPBridge.ofConfig { enabled := some false }).forward_signal
          { signal_id := some "sig-4" } "F" "T" "N"
          (fun _ => .netError "down")).1.status = "skipped") ∧
    (((STPBridge.ofConfig { enabled := some false }).forward_signal
          { signal_id := some "sig-4" } "F" "T" "N"
          (fun _ => .netError "down")).1.signal_id = none) :=
  ⟨rfl, rfl⟩

/-- C8 amended: every result of an ENABLED `forward_signal` call — its
status is then "success" or "error" — carries a `signal_id`, taken from the
signal's own `signal_id` when present and otherwise freshly generated;
the disabled path returns "skipped" with no `signal_id`. -/
theorem C8_enabled_results_carry_signal_id (b : STPBridge) (signal : Signal)
    (fsid ftid now : String) (net : Nat → AttemptOutcome)
    (hen : b.enabled = true) :
    ((b.forward_signal signal fsid ftid now net).1.signal_id
        = some (signal.signal_id.getD fsid)) ∧
    ((b.forward_signal signal fsid ftid now net).1.status = "success" ∨
     (b.forward_signal signal fsid ftid now net).1.status = "error") := by
  simp only [STPBridge.forward_signal, hen, Bool.true_eq_false, if_false]
  cases hsr : b.send_with_retry net
      { transmission_id := ftid
        source := "karmachain_feedback_engine"
        signal := signal
        timestamp := now } with
  | mk res trace =>
      cases res with
      | ok s => exact ⟨rfl, Or.inl rfl⟩
      | error e => exact ⟨rfl, Or.inr rfl⟩

/-- Witness for the amended C8 at a concrete enabled bridge whose attempts
all fail: the "error" result still carries the signal's own id. -/
theorem C8_enabled_results_carry_signal_id_witness :
    (((STPBridge.ofConfig {}).forward_signal { signal_id := some "sig-5" }
        "F" "T" "N" (fun _ => .response 500 .empty)).1.signal_id
      = some "sig-5") ∧
    ((((STPBridge.ofConfig {}).forward_signal { signal_id := some "sig-5" }
        "F" "T" "N" (fun _ => .response 500 .empty)).1.status = "success") ∨
     (((STPBridge.ofConfig {}).forward_signal { signal_id := some "sig-5" }
        "F" "T" "N" (fun _ => .response 500 .empty)).1.status = "error")) :=
  C8_enabled_results_carry_signal_id (STPBridge.ofConfig {})
    { signal_id := some "sig-5" } "F" "T" "N"
    (fun _ => .response 500 .empty) rfl

/-- C9: with a non-positive `retry_attempts`, an enabled `forward_signal`
issues zero POSTs (empty trace: the loop body never runs) and returns an
"error" result whose detail is the pre-initialized placeholder
"Unknown error". -/
theorem C9_nonpositive_retry_attempts (b : STPBridge) (signal : Signal)
    (fsid ftid now : String) (net : Nat → AttemptOutcome)
    (hen : b.enabled = true) (hnp : b.retry_attempts ≤ 0) :
    b.forward_signal signal fsid ftid now net =
      ({ status := "error"
         signal_id := some (signal.signal_id.getD fsid)
         error := some "Unknown error"
         timestamp := now }, []) := by
  have h0 : b.retry_attempts.toNat = 0 := Int.toNat_eq_zero.mpr hnp
  simp only [STPBridge.forward_signal, hen, Bool.true_eq_false, if_false,
    STPBridge.send_with_retry, h0, send_with_retry_go, BridgeError.toMessage]

/-- Witness for C9 at `retry_attempts = -2`: zero POSTs, "Unknown error". -/
theorem C9_nonpositive_retry_attempts_witness :
    (STPBridge.ofConfig { retry_attempts := some (-2) }).forward_signal
        { signal_id := some "sig-6" } "F" "T" "N"
        (fun _ => .response 200 .empty) =
      ({ status := "error"
         signal_id := some "sig-6"
         error := some "Unknown error"
         timestamp := "N" }, []) :=
  C9_nonpositive_retry_attempts
    (STPBridge.ofConfig { retry_attempts := some (-2) })
    { signal_id := some "sig-6" } "F" "T" "N"
    (fun _ => .response 200 .empty) rfl (by decide)

/-- C10: a response whose non-empty body is not valid JSON fails its retry
attempt even when its status code is 200 or 201 (the body is parsed before
the status code is inspected), and the failure recorded — and passed on as
the loop's `last_exception` — is the JSON parse error, not a status-code
error. -/
theorem C10_malformed_body_fails_attempt (net : Nat → AttemptOutcome)
    (payload : TransmissionPayload) (i r : Nat) (last : BridgeError)
    (code : Nat) (raw : String)
    (hresp : net i = .response code (.malformed raw)) :
    attemptStep net i = .error (.jsonParse raw) ∧
    send_with_retry_go net payload i (r + 1) last =
      ((send_with_retry_go net payload (i + 1) r (.jsonParse raw)).1,
       payload :: (send_with_retry_go net payload (i + 1) r (.jsonParse raw)).2) := by
  have hstep : attemptStep net i = .error (.jsonParse raw) := by
    simp [attemptStep, hresp, parseBody]
  exact ⟨hstep, by simp only [send_with_retry_go, hstep]⟩

/-- Concrete payload used by the C10 witness. -/
def demoPayload : TransmissionPayload :=
  { transmission_id := "T"
    source := "karmachain_feedback_engine"
    signal := { signal_id := some "sig-7" }
    timestamp := "N" }

/-- Witness for C10: a 200 response with body "not json" fails the first of
three attempts and records the parse error. -/
theorem C10_malformed_body_fails_attempt_witness :
    attemptStep (fun _ => AttemptOutcome.response 200 (.malformed "not json")) 0 =
        .error (.jsonParse "not json") ∧
    send_with_retry_go (fun _ => AttemptOutcome.response 200 (.malformed "not json"))
        demoPayload 0 (2 + 1) BridgeError.unknown =
      ((send_with_retry_go (fun _ => AttemptOutcome.response 200 (.malformed "not json"))
          demoPayload (0 + 1) 2 (BridgeError.jsonParse "not json")).1,
       demoPayload ::
         (send_with_retry_go (fun _ => AttemptOutcome.response 200 (.malformed "not json"))
            demoPayload (0 + 1) 2 (BridgeError.jsonParse "not json")).2) :=
  C10_malformed_body_fails_attempt
    (fun _ => AttemptOutcome.response 200 (.malformed "not json"))
    demoPayload 0 2 BridgeError.unknown 200 "not json" rfl
